import Mathlib

/-!
Verification of the MLS → VLS sync engine against its specification.

The definitions in this file are shallow embeddings of the TypeScript
sources: the JSON ledger store (src/sync/engine.ts, second unit), the
sync orchestration loop (SyncEngine.start / processListing), the image
downloader (src/mls/types.ts, second unit) and the VLS poster
(src/vls/poster.ts).  Effectful sub-operations (network, browser,
filesystem) are passed in as explicit oracles returning Except values;
timestamps are passed as explicit parameters.
-/

namespace VlsSync

/-- JavaScript `a || b` on strings: the empty string is falsy. -/
def jsOrString (a b : String) : String :=
  if a = "" then b else a

/-- Ledger entry status, from the SyncedListing interface. -/
inductive ListingStatus where
  | active
  | deleted
  | expired
deriving DecidableEq

/-- One ledger entry (interface SyncedListing). -/
structure SyncedListing where
  mlsNumber : String
  vlsListingId : String
  address : String
  city : String
  price : Int
  syncedAt : String
  updatedAt : String
  status : ListingStatus
deriving DecidableEq

/-- Audit log action kinds (SyncLogEntry.action). -/
inductive LogAction where
  | posted
  | updated
  | skipped
  | failed
  | deleted
deriving DecidableEq

/-- One audit log line (interface SyncLogEntry). -/
structure SyncLogEntry where
  mlsNumber : String
  action : LogAction
  message : String
  timestamp : String
deriving DecidableEq

/-- The persisted store (interface SyncDatabase): a map of ledger
entries keyed by MLS number plus the bounded audit log. -/
structure SyncDatabase where
  listings : String → Option SyncedListing
  log : List SyncLogEntry

/-- Embeds logSyncAction: push the new line, then keep only the last
1000 entries (`db.log.slice(-1000)` when the length exceeds 1000). -/
def logSyncAction (db : SyncDatabase) (mlsNumber : String)
    (action : LogAction) (message : String) (now : String) : SyncDatabase :=
  let pushed := db.log ++ [⟨mlsNumber, action, message, now⟩]
  let bounded := if pushed.length > 1000 then pushed.drop (pushed.length - 1000) else pushed
  { db with log := bounded }

/-- Embeds isListingSynced: true iff the entry exists with status active. -/
def isListingSynced (db : SyncDatabase) (mlsNumber : String) : Bool :=
  match db.listings mlsNumber with
  | some l => l.status = ListingStatus.active
  | none => false

/-- Embeds recordSyncedListing: upsert the entry, keeping the previous
syncedAt when present and truthy (`db.listings[mlsNumber]?.syncedAt || now`),
refreshing updatedAt, forcing status active, then log the action. -/
def recordSyncedListing (db : SyncDatabase) (mlsNumber vlsListingId address city : String)
    (price : Int) (now : String) : SyncDatabase :=
  let prevSyncedAt := match db.listings mlsNumber with
    | some e => e.syncedAt
    | none => ""
  let entry : SyncedListing :=
    { mlsNumber := mlsNumber
      vlsListingId := vlsListingId
      address := address
      city := city
      price := price
      syncedAt := jsOrString prevSyncedAt now
      updatedAt := now
      status := ListingStatus.active }
  let db1 : SyncDatabase :=
    { db with listings := fun k => if k = mlsNumber then some entry else db.listings k }
  logSyncAction db1 mlsNumber LogAction.posted ("Posted to VLS as " ++ vlsListingId) now

/-- Claim C5: after every call to logSyncAction the audit log holds at
most 1000 entries; it equals the most recent 1000 of the pushed log
(all of it when short enough), and the new line is always its last
element. -/
theorem logSyncAction_bounded (db : SyncDatabase) (mlsNumber : String)
    (action : LogAction) (message : String) (now : String) :
    let e : SyncLogEntry := ⟨mlsNumber, action, message, now⟩
    let db' := logSyncAction db mlsNumber action message now
    let pushed := db.log ++ [e]
    db'.log.length ≤ 1000 ∧
    db'.log = pushed.drop (pushed.length - 1000) ∧
    db'.log.getLast? = some e := by
  intro e db' pushed
  have hlast : pushed.getLast? = some e := by
    simp [pushed, List.getLast?_concat]
  have hdb : db'.log
      = if pushed.length > 1000 then pushed.drop (pushed.length - 1000) else pushed := rfl
  have hplen : pushed.length = db.log.length + 1 := by simp [pushed]
  by_cases hlen : pushed.length > 1000
  · rw [hdb, if_pos hlen]
    refine ⟨?_, rfl, ?_⟩
    · rw [List.length_drop]
      omega
    · have hk : pushed.length - 1000 ≤ db.log.length := by omega
      calc (pushed.drop (pushed.length - 1000)).getLast?
          = (db.log.drop (pushed.length - 1000) ++ [e]).getLast? := by
            rw [show pushed = db.log ++ [e] from rfl,
              List.drop_append_of_le_length hk]
        _ = some e := List.getLast?_concat _
  · rw [hdb, if_neg hlen]
    have hzero : pushed.length - 1000 = 0 := by omega
    refine ⟨by omega, ?_, hlast⟩
    rw [hzero, List.drop_zero]

/-- A truthy string wins in the JavaScript or. -/
theorem jsOrString_of_ne {a : String} (h : a ≠ "") (b : String) : jsOrString a b = a := by
  unfold jsOrString
  rw [if_neg h]

/-- Claim C4: a second recordSyncedListing call for the same MLS number
keeps the syncedAt written by the first call, stamps updatedAt with the
second call time, and isListingSynced stays true after both calls. -/
theorem recordSynced_idem (db : SyncDatabase)
    (mlsNumber v1 a1 c1 : String) (p1 : Int) (t1 : String)
    (v2 a2 c2 : String) (p2 : Int) (t2 : String) (h : t1 ≠ "") :
    let db1 := recordSyncedListing db mlsNumber v1 a1 c1 p1 t1
    let db2 := recordSyncedListing db1 mlsNumber v2 a2 c2 p2 t2
    (db2.listings mlsNumber).map SyncedListing.syncedAt
      = (db1.listings mlsNumber).map SyncedListing.syncedAt ∧
    (db2.listings mlsNumber).map SyncedListing.updatedAt = some t2 ∧
    isListingSynced db1 mlsNumber = true ∧
    isListingSynced db2 mlsNumber = true := by
  intro db1 db2
  have h1 : db1.listings mlsNumber = some
      { mlsNumber := mlsNumber, vlsListingId := v1, address := a1, city := c1
        price := p1
        syncedAt := jsOrString (match db.listings mlsNumber with
          | some e => e.syncedAt
          | none => "") t1
        updatedAt := t1, status := ListingStatus.active } := by
    simp [db1, recordSyncedListing, logSyncAction]
  have hne : jsOrString (match db.listings mlsNumber with
      | some e => e.syncedAt
      | none => "") t1 ≠ "" := by
    unfold jsOrString
    split <;> simp_all
  have h2 : db2.listings mlsNumber = some
      { mlsNumber := mlsNumber, vlsListingId := v2, address := a2, city := c2
        price := p2
        syncedAt := jsOrString (match db.listings mlsNumber with
          | some e => e.syncedAt
          | none => "") t1
        updatedAt := t2, status := ListingStatus.active } := by
    simp [db2, recordSyncedListing, logSyncAction, h1, jsOrString_of_ne hne]
  refine ⟨?_, ?_, ?_, ?_⟩
  · rw [h1, h2]
    simp
  · rw [h2]
    rfl
  · simp [isListingSynced, h1]
  · simp [isListingSynced, h2]

/-- Witness for C4 at a concrete input: empty database, two calls at
times t1 and t2. -/
theorem recordSynced_idem_witness :
    ("t1" : String) ≠ "" ∧
    (let db0 : SyncDatabase := { listings := fun _ => none, log := [] }
     let db1 := recordSyncedListing db0 "MLS001" "V1" "addr" "city" 100 "t1"
     let db2 := recordSyncedListing db1 "MLS001" "V2" "addr2" "city2" 200 "t2"
     (db2.listings "MLS001").map SyncedListing.syncedAt
       = (db1.listings "MLS001").map SyncedListing.syncedAt ∧
     (db2.listings "MLS001").map SyncedListing.updatedAt = some "t2" ∧
     isListingSynced db1 "MLS001" = true ∧
     isListingSynced db2 "MLS001" = true) :=
  ⟨by decide, recordSynced_idem { listings := fun _ => none, log := [] }
    "MLS001" "V1" "addr" "city" 100 "t1" "V2" "addr2" "city2" 200 "t2" (by decide)⟩

/-- The MLSListing fields the sync loop reads. -/
structure MLSListing where
  mlsNumber : String
  address : String
deriving DecidableEq

/-- The three terminal statuses of a SyncResult. -/
inductive SyncStatus where
  | success
  | failed
  | skipped
deriving DecidableEq

/-- One terminal result per listing (interface SyncResult). -/
structure SyncResult where
  mlsNumber : String
  address : String
  status : SyncStatus
  message : String
  timestamp : Nat
  vlsListingId : Option String
deriving DecidableEq

/-- One batch run (interface SyncSession). -/
structure SyncSession where
  id : String
  startTime : Nat
  endTime : Option Nat
  totalListings : Nat
  posted : Nat
  failed : Nat
  skipped : Nat
  results : List SyncResult
deriving DecidableEq

/-- Trace marker for each awaited sub-operation of processListing, in
invocation order. -/
inductive EngineEvent where
  | checkDuplicate
  | downloadImages
  | postToVLS
  | cleanupImages
deriving DecidableEq

/-- Outcomes of the awaited sub-operations of SyncEngine; an error
value stands for a thrown exception.  The stub bodies of the source
are the concrete instance srcOps below. -/
structure EngineOps where
  fetchListings : Except String (List MLSListing)
  checkDuplicate : MLSListing → Except String Bool
  downloadImages : MLSListing → Except String (List String)
  postToVLS : MLSListing → List String → Except String String
  cleanupImages : List String → Except String Unit

/-- The sub-operation bodies exactly as written in src/sync/engine.ts:
fetchListings returns an empty list, checkDuplicate returns false
without consulting the ledger, downloadImages returns an empty list,
postToVLS throws, cleanupImages does nothing. -/
def srcOps : EngineOps where
  fetchListings := .ok []
  checkDuplicate := fun _ => .ok false
  downloadImages := fun _ => .ok []
  postToVLS := fun _ _ => .error "VLS Homes automation not yet implemented"
  cleanupImages := fun _ => .ok ()

/-- The failed SyncResult built in the catch block of processListing. -/
def failedResult (listing : MLSListing) (msg : String) (now : Nat) : SyncResult :=
  { mlsNumber := listing.mlsNumber, address := listing.address
    status := SyncStatus.failed, message := msg, timestamp := now, vlsListingId := none }

/-- Embeds SyncEngine.processListing: duplicate check, image download,
post, cleanup, with the whole body wrapped in a try/catch that converts
any thrown error into a failed result.  The second component records
which sub-operations were invoked. -/
def processListing (ops : EngineOps) (listing : MLSListing) (now : Nat) :
    SyncResult × List EngineEvent :=
  match ops.checkDuplicate listing with
  | .error e => (failedResult listing e now, [EngineEvent.checkDuplicate])
  | .ok true =>
    ({ mlsNumber := listing.mlsNumber, address := listing.address
       status := SyncStatus.skipped, message := "Already exists on VLS Homes"
       timestamp := now, vlsListingId := none },
     [EngineEvent.checkDuplicate])
  | .ok false =>
    match ops.downloadImages listing with
    | .error e => (failedResult listing e now,
        [EngineEvent.checkDuplicate, EngineEvent.downloadImages])
    | .ok localImages =>
      match ops.postToVLS listing localImages with
      | .error e => (failedResult listing e now,
          [EngineEvent.checkDuplicate, EngineEvent.downloadImages, EngineEvent.postToVLS])
      | .ok vlsId =>
        match ops.cleanupImages localImages with
        | .error e => (failedResult listing e now,
            [EngineEvent.checkDuplicate, EngineEvent.downloadImages,
             EngineEvent.postToVLS, EngineEvent.cleanupImages])
        | .ok _ =>
          ({ mlsNumber := listing.mlsNumber, address := listing.address
             status := SyncStatus.success, message := "Posted successfully"
             timestamp := now, vlsListingId := some vlsId },
           [EngineEvent.checkDuplicate, EngineEvent.downloadImages,
            EngineEvent.postToVLS, EngineEvent.cleanupImages])

/-- The loop body bookkeeping of SyncEngine.start: push the result and
bump exactly one counter (if success / else if skipped / else failed). -/
def pushResult (session : SyncSession) (r : SyncResult) : SyncSession :=
  let s1 := { session with results := session.results ++ [r] }
  match r.status with
  | SyncStatus.success => { s1 with posted := s1.posted + 1 }
  | SyncStatus.skipped => { s1 with skipped := s1.skipped + 1 }
  | SyncStatus.failed => { s1 with failed := s1.failed + 1 }

/-- The per-listing loop of SyncEngine.start, in the run where stop()
is never called so the shouldStop flag stays false. -/
def processAll (ops : EngineOps) (now : Nat) :
    List MLSListing → SyncSession → SyncSession
  | [], session => session
  | listing :: rest, session =>
      processAll ops now rest (pushResult session (processListing ops listing now).1)

/-- Errors thrown out of SyncEngine.start, tagged by throw site. -/
inductive EngineError where
  | alreadyRunning
  | fetchFailed (msg : String)
deriving DecidableEq

/-- The SyncEngineState fields. -/
structure EngineState where
  isRunning : Bool
  shouldStop : Bool
  currentSession : Option SyncSession
deriving DecidableEq

/-- Embeds SyncEngine.start for a run during which stop() is never
called: the already-running guard, the fetch, the empty-listings early
return, the per-listing loop, and the finally block that clears
isRunning and currentSession on every exit path. -/
def start (ops : EngineOps) (st : EngineState) (sessionId : String) (now : Nat) :
    Except EngineError SyncSession × EngineState :=
  if st.isRunning then
    (.error EngineError.alreadyRunning, st)
  else
    let resetState : EngineState :=
      { isRunning := false, shouldStop := false, currentSession := none }
    match ops.fetchListings with
    | .error e => (.error (EngineError.fetchFailed e), resetState)
    | .ok listings =>
      let session0 : SyncSession :=
        { id := sessionId, startTime := now, endTime := none
          totalListings := listings.length
          posted := 0, failed := 0, skipped := 0, results := [] }
      if listings.isEmpty then
        (.ok { session0 with endTime := some now }, resetState)
      else
        (.ok { processAll ops now listings session0 with endTime := some now }, resetState)

/-- Claim C1 (code bug): even after recordSyncedListing has stored an
active ledger entry for the MLS number, processListing does not skip
the listing — the checkDuplicate stub never consults the ledger, so
the pass proceeds to the posting operation (which the source stub
makes fail), producing a failed result instead of a skipped one. -/
theorem duplicate_guard_not_wired :
    isListingSynced (recordSyncedListing { listings := fun _ => none, log := [] }
      "MLS0001" "VLS77" "123 Main St" "Tampa" 500000 "t1") "MLS0001" = true ∧
    (processListing srcOps { mlsNumber := "MLS0001", address := "123 Main St" } 0).1.status
      = SyncStatus.failed ∧
    EngineEvent.postToVLS
      ∈ (processListing srcOps { mlsNumber := "MLS0001", address := "123 Main St" } 0).2 := by
  refine ⟨?_, rfl, ?_⟩
  · rfl
  · decide

/-- Claim C2 (code bug): when images were staged and the replay throws,
the catch block of processListing returns the failed result directly —
cleanupImages is never invoked on that exit path (the call sits after
postToVLS inside the try, not in a finally). -/
theorem cleanup_skipped_on_replay_failure (ops : EngineOps) (listing : MLSListing)
    (now : Nat) (paths : List String) (err : String)
    (hdup : ops.checkDuplicate listing = .ok false)
    (hdl : ops.downloadImages listing = .ok paths)
    (_hstaged : paths ≠ [])
    (hpost : ops.postToVLS listing paths = .error err) :
    (processListing ops listing now).1.status = SyncStatus.failed ∧
    (processListing ops listing now).1.message = err ∧
    EngineEvent.downloadImages ∈ (processListing ops listing now).2 ∧
    EngineEvent.cleanupImages ∉ (processListing ops listing now).2 := by
  simp [processListing, hdup, hdl, hpost, failedResult]

/-- Concrete operations for the C2 witness: one staged image and a
replay that throws. -/
def failingReplayOps : EngineOps where
  fetchListings := .ok []
  checkDuplicate := fun _ => .ok false
  downloadImages := fun _ => .ok ["img0.jpg"]
  postToVLS := fun _ _ => .error "submit timed out"
  cleanupImages := fun _ => .ok ()

/-- Witness for C2 at a concrete input. -/
theorem cleanup_skipped_on_replay_failure_witness :
    (failingReplayOps.checkDuplicate ⟨"M1", "1 A St"⟩ = .ok false ∧
     failingReplayOps.downloadImages ⟨"M1", "1 A St"⟩ = .ok ["img0.jpg"] ∧
     (["img0.jpg"] : List String) ≠ [] ∧
     failingReplayOps.postToVLS ⟨"M1", "1 A St"⟩ ["img0.jpg"] = .error "submit timed out") ∧
    ((processListing failingReplayOps ⟨"M1", "1 A St"⟩ 5).1.status = SyncStatus.failed ∧
     (processListing failingReplayOps ⟨"M1", "1 A St"⟩ 5).1.message = "submit timed out" ∧
     EngineEvent.downloadImages ∈ (processListing failingReplayOps ⟨"M1", "1 A St"⟩ 5).2 ∧
     EngineEvent.cleanupImages ∉ (processListing failingReplayOps ⟨"M1", "1 A St"⟩ 5).2) :=
  ⟨⟨rfl, rfl, by decide, rfl⟩,
   cleanup_skipped_on_replay_failure failingReplayOps ⟨"M1", "1 A St"⟩ 5
     ["img0.jpg"] "submit timed out" rfl rfl (by decide) rfl⟩

/-- The result built by processListing always carries the MLS number
and address of the listing it was built from. -/
theorem processListing_fields (ops : EngineOps) (listing : MLSListing) (now : Nat) :
    (processListing ops listing now).1.mlsNumber = listing.mlsNumber ∧
    (processListing ops listing now).1.address = listing.address := by
  unfold processListing failedResult
  constructor <;> (repeat' split) <;> rfl

/-- pushResult appends the result and bumps exactly one counter,
leaving the identifying fields of the session alone. -/
theorem pushResult_spec (session : SyncSession) (r : SyncResult) :
    (pushResult session r).results = session.results ++ [r] ∧
    (pushResult session r).posted + (pushResult session r).skipped
        + (pushResult session r).failed
      = session.posted + session.skipped + session.failed + 1 ∧
    (pushResult session r).totalListings = session.totalListings ∧
    (pushResult session r).id = session.id := by
  cases hs : r.status <;> simp [pushResult, hs] <;> omega

/-- Loop invariant of processAll: results accumulate one per listing in
fetch order and the three counters together grow by the number of
listings processed. -/
theorem processAll_spec (ops : EngineOps) (now : Nat) :
    ∀ (listings : List MLSListing) (session : SyncSession),
      (processAll ops now listings session).results.map SyncResult.mlsNumber
          = session.results.map SyncResult.mlsNumber
            ++ listings.map MLSListing.mlsNumber ∧
      (processAll ops now listings session).results.map SyncResult.address
          = session.results.map SyncResult.address
            ++ listings.map MLSListing.address ∧
      (processAll ops now listings session).posted
          + (processAll ops now listings session).skipped
          + (processAll ops now listings session).failed
        = session.posted + session.skipped + session.failed + listings.length ∧
      (processAll ops now listings session).totalListings = session.totalListings ∧
      (processAll ops now listings session).id = session.id
  | [], session => by simp [processAll]
  | listing :: rest, session => by
    have ih := processAll_spec ops now rest
      (pushResult session (processListing ops listing now).1)
    have hpush := pushResult_spec session (processListing ops listing now).1
    have hfields := processListing_fields ops listing now
    obtain ⟨ih1, ih2, ih3, ih4, ih5⟩ := ih
    obtain ⟨hp1, hp2, hp3, hp4⟩ := hpush
    refine ⟨?_, ?_, ?_, ?_, ?_⟩
    · rw [show processAll ops now (listing :: rest) session
          = processAll ops now rest (pushResult session (processListing ops listing now).1)
          from rfl]
      rw [ih1, hp1]
      simp [hfields.1]
    · rw [show processAll ops now (listing :: rest) session
          = processAll ops now rest (pushResult session (processListing ops listing now).1)
          from rfl]
      rw [ih2, hp1]
      simp [hfields.2]
    · rw [show processAll ops now (listing :: rest) session
          = processAll ops now rest (pushResult session (processListing ops listing now).1)
          from rfl]
      rw [ih3, hp2]
      simp
      omega
    · rw [show processAll ops now (listing :: rest) session
          = processAll ops now rest (pushResult session (processListing ops listing now).1)
          from rfl]
      rw [ih4, hp3]
    · rw [show processAll ops now (listing :: rest) session
          = processAll ops now rest (pushResult session (processListing ops listing now).1)
          from rfl]
      rw [ih5, hp4]

/-- Claim C3: a session that runs to completion without stop() holds
exactly one result per fetched listing, in fetch order, each with one
of the three terminal statuses, and posted + skipped + failed equals
totalListings equals the number of results. -/
theorem session_one_result_per_listing (ops : EngineOps) (st : EngineState)
    (sessionId : String) (now : Nat) (listings : List MLSListing)
    (hrun : st.isRunning = false) (hfetch : ops.fetchListings = .ok listings) :
    ∃ session : SyncSession,
      (start ops st sessionId now).1 = .ok session ∧
      session.totalListings = listings.length ∧
      session.results.length = listings.length ∧
      session.results.map SyncResult.mlsNumber = listings.map MLSListing.mlsNumber ∧
      session.results.map SyncResult.address = listings.map MLSListing.address ∧
      (∀ r ∈ session.results, r.status = SyncStatus.success
        ∨ r.status = SyncStatus.skipped ∨ r.status = SyncStatus.failed) ∧
      session.posted + session.skipped + session.failed = session.totalListings ∧
      session.posted + session.skipped + session.failed = session.results.length := by
  have htri : ∀ (s : SyncSession), ∀ r ∈ s.results, r.status = SyncStatus.success
      ∨ r.status = SyncStatus.skipped ∨ r.status = SyncStatus.failed := by
    intro s r hr
    cases r.status
    · exact Or.inl rfl
    · exact Or.inr (Or.inr rfl)
    · exact Or.inr (Or.inl rfl)
  by_cases hemp : listings.isEmpty
  · have hnil : listings = [] := List.isEmpty_iff.mp hemp
    subst hnil
    refine ⟨{ id := sessionId, startTime := now, endTime := some now, totalListings := 0
              posted := 0, failed := 0, skipped := 0, results := [] },
      ?_, rfl, rfl, rfl, rfl, ?_, rfl, rfl⟩
    · simp [start, hrun, hfetch]
    · intro r hr
      simp at hr
  · set session0 : SyncSession :=
      { id := sessionId, startTime := now, endTime := none
        totalListings := listings.length
        posted := 0, failed := 0, skipped := 0, results := [] } with hsession0
    set final : SyncSession :=
      { processAll ops now listings session0 with endTime := some now } with hfinal
    obtain ⟨ha1, ha2, ha3, ha4, ha5⟩ := processAll_spec ops now listings session0
    have hres : final.results = (processAll ops now listings session0).results := rfl
    have hlen : final.results.length = listings.length := by
      have := congrArg List.length ha1
      simpa [hres] using this
    refine ⟨final, ?_, ?_, hlen, ?_, ?_, htri _, ?_, ?_⟩
    · simp [start, hrun, hfetch, hemp, hfinal, hsession0]
    · show (processAll ops now listings session0).totalListings = listings.length
      rw [ha4]
    · simpa [hres, hsession0] using ha1
    · simpa [hres, hsession0] using ha2
    · show (processAll ops now listings session0).posted
          + (processAll ops now listings session0).skipped
          + (processAll ops now listings session0).failed
        = (processAll ops now listings session0).totalListings
      rw [ha3, ha4]
      simp [hsession0]
    · show (processAll ops now listings session0).posted
          + (processAll ops now listings session0).skipped
          + (processAll ops now listings session0).failed
        = final.results.length
      rw [ha3, hlen]
      simp [hsession0]

/-- Concrete operations for the C3 witness: two listings, the first
posts and the second fails at replay. -/
def twoListingOps : EngineOps where
  fetchListings := .ok [⟨"M1", "1 A St"⟩, ⟨"M2", "2 B St"⟩]
  checkDuplicate := fun _ => .ok false
  downloadImages := fun _ => .ok []
  postToVLS := fun l _ => if l.mlsNumber = "M1" then .ok "V1" else .error "boom"
  cleanupImages := fun _ => .ok ()

/-- Witness for C3 at a concrete input. -/
theorem session_one_result_per_listing_witness :
    (({ isRunning := false, shouldStop := false, currentSession := none }
        : EngineState).isRunning = false ∧
     twoListingOps.fetchListings = .ok [⟨"M1", "1 A St"⟩, ⟨"M2", "2 B St"⟩]) ∧
    (∃ session : SyncSession,
      (start twoListingOps
        { isRunning := false, shouldStop := false, currentSession := none }
        "sess1" 7).1 = .ok session ∧
      session.totalListings = ([⟨"M1", "1 A St"⟩, ⟨"M2", "2 B St"⟩]
        : List MLSListing).length ∧
      session.results.length = ([⟨"M1", "1 A St"⟩, ⟨"M2", "2 B St"⟩]
        : List MLSListing).length ∧
      session.results.map SyncResult.mlsNumber
        = ([⟨"M1", "1 A St"⟩, ⟨"M2", "2 B St"⟩] : List MLSListing).map MLSListing.mlsNumber ∧
      session.results.map SyncResult.address
        = ([⟨"M1", "1 A St"⟩, ⟨"M2", "2 B St"⟩] : List MLSListing).map MLSListing.address ∧
      (∀ r ∈ session.results, r.status = SyncStatus.success
        ∨ r.status = SyncStatus.skipped ∨ r.status = SyncStatus.failed) ∧
      session.posted + session.skipped + session.failed = session.totalListings ∧
      session.posted + session.skipped + session.failed = session.results.length) :=
  ⟨⟨rfl, rfl⟩,
   session_one_result_per_listing twoListingOps
     { isRunning := false, shouldStop := false, currentSession := none }
     "sess1" 7 [⟨"M1", "1 A St"⟩, ⟨"M2", "2 B St"⟩] rfl rfl⟩

/-- After a guarded start returns, the state is fully reset. -/
theorem start_state_eq (ops : EngineOps) (st : EngineState)
    (sessionId : String) (now : Nat) (hrun : st.isRunning = false) :
    (start ops st sessionId now).2
      = { isRunning := false, shouldStop := false, currentSession := none } := by
  unfold start
  rw [hrun]
  simp
  rcases hf : ops.fetchListings with e | ls
  · simp
  · rcases eq_or_ne ls [] with hnil | hnil
    · subst hnil
      simp
    · simp [hnil]

/-- Claim C10: every start invocation that passes the already-running
guard clears isRunning and currentSession on both exit paths (normal
return and thrown fetch error), and a subsequent start is never
rejected by the guard. -/
theorem start_resets_state (ops : EngineOps) (st : EngineState)
    (sessionId : String) (now : Nat) (hrun : st.isRunning = false) :
    (start ops st sessionId now).2.isRunning = false ∧
    (start ops st sessionId now).2.currentSession = none ∧
    ∀ (sessionId2 : String) (now2 : Nat),
      (start ops (start ops st sessionId now).2 sessionId2 now2).1
        ≠ .error EngineError.alreadyRunning := by
  have h2 := start_state_eq ops st sessionId now hrun
  refine ⟨by rw [h2], by rw [h2], ?_⟩
  intro sessionId2 now2
  rw [h2]
  unfold start
  simp
  rcases hf : ops.fetchListings with e | ls
  · simp
  · rcases eq_or_ne ls [] with hnil | hnil
    · subst hnil
      simp
    · simp [hnil]

/-- Witness for C10 at a concrete input: the source stub operations and
a fresh state. -/
theorem start_resets_state_witness :
    (({ isRunning := false, shouldStop := false, currentSession := none }
        : EngineState).isRunning = false) ∧
    ((start srcOps { isRunning := false, shouldStop := false, currentSession := none }
        "s1" 3).2.isRunning = false ∧
     (start srcOps { isRunning := false, shouldStop := false, currentSession := none }
        "s1" 3).2.currentSession = none ∧
     ∀ (sessionId2 : String) (now2 : Nat),
      (start srcOps
        (start srcOps { isRunning := false, shouldStop := false, currentSession := none }
          "s1" 3).2 sessionId2 now2).1
        ≠ .error EngineError.alreadyRunning) :=
  ⟨rfl, start_resets_state srcOps
    { isRunning := false, shouldStop := false, currentSession := none } "s1" 3 rfl⟩

/-- JavaScript `a || b` on an optional number: undefined and 0 are
falsy (`this.config.retries || 2`). -/
def jsOrNat (a : Option Nat) (b : Nat) : Nat :=
  match a with
  | some n => if n = 0 then b else n
  | none => b

/-- Per-URL outcome of the downloader (interface DownloadResult). -/
structure DownloadResult where
  url : String
  localPath : String
  success : Bool
  error : Option String
deriving DecidableEq

/-- The retry loop of ImageDownloader.downloadImage, iterated over the
attempt numbers still to run.  The oracle gives the outcome of the
inner download call on each attempt number.  Returns
(success, lastError, attempts made, backoff delays waited): a success
returns at once; a failure stores the error and, when further attempts
remain (attempt < retries), waits 1000 * 2 ^ attempt. -/
def attemptSequence (oracle : Nat → Except String Unit) (retries : Nat) :
    List Nat → Option String → Bool × Option String × Nat × List Nat
  | [], lastError => (false, lastError, 0, [])
  | a :: rest, _lastError =>
    match oracle a with
    | .ok _ => (true, none, 1, [])
    | .error e =>
      let ds := if a < retries then [1000 * 2 ^ a] else []
      let tail := attemptSequence oracle retries rest (some e)
      (tail.1, tail.2.1, tail.2.2.1 + 1, ds ++ tail.2.2.2)

/-- Embeds ImageDownloader.downloadImage: run attempts 0 .. retries
(with retries read through the JavaScript or, so 0 and undefined fall
back to 2); on final failure report success false with the last error
message (or the fallback text), never throwing. -/
def downloadImage (oracle : Nat → Except String Unit) (cfgRetries : Option Nat)
    (url localPath : String) : DownloadResult × Nat × List Nat :=
  let retries := jsOrNat cfgRetries 2
  let run := attemptSequence oracle retries (List.range (retries + 1)) none
  if run.1 then
    ({ url := url, localPath := localPath, success := true, error := none },
     run.2.2.1, run.2.2.2)
  else
    ({ url := url, localPath := localPath, success := false
       error := some (jsOrString
         (match run.2.1 with
          | some m => m
          | none => "") "Download failed") },
     run.2.2.1, run.2.2.2)

/-- On a run where every attempt fails, the retry loop makes one
attempt per listed attempt number, keeps the error of the last one,
and waits the exponential backoff before each non-final attempt. -/
theorem attemptSequence_all_fail (oracle : Nat → Except String Unit)
    (errs : Nat → String) (retries : Nat)
    (h : ∀ k, oracle k = .error (errs k)) :
    ∀ (L : List Nat) (lastError : Option String),
      attemptSequence oracle retries L lastError
        = (false,
           (match L.getLast? with
            | some a => some (errs a)
            | none => lastError),
           L.length,
           (L.filter (fun a => a < retries)).map (fun a => 1000 * 2 ^ a))
  | [], lastError => by simp [attemptSequence]
  | a :: rest, lastError => by
    have ih := attemptSequence_all_fail oracle errs retries h rest (some (errs a))
    simp only [attemptSequence, h a]
    rw [ih]
    simp only [Prod.mk.injEq]
    refine ⟨trivial, ?_, by simp, ?_⟩
    · cases rest with
      | nil => simp
      | cons b t =>
        have hsome : ∃ x, (b :: t).getLast? = some x := by
          have := List.getLast?_isSome (l := b :: t)
          rw [Option.isSome_iff_exists] at this
          exact this.mpr (by simp)
        obtain ⟨x, hx⟩ := hsome
        rw [List.getLast?_cons_cons, hx]
    · by_cases hab : a < retries <;> simp [List.filter_cons, hab]

/-- Claim C6 (amended): on a permanently failing URL, downloadImage
makes exactly effectiveRetries + 1 attempts where effectiveRetries is
the configured retries when that is a nonzero number and 2 when it is
unset or 0 (the JavaScript falsy fallback), waits delays doubling from
the 1000 ms base between consecutive attempts, and returns success
false carrying the last error rather than throwing. -/
theorem downloadImage_retry_bound (cfgRetries : Option Nat)
    (oracle : Nat → Except String Unit) (errs : Nat → String)
    (url localPath : String) (h : ∀ k, oracle k = .error (errs k)) :
    (downloadImage oracle cfgRetries url localPath).2.1 = jsOrNat cfgRetries 2 + 1 ∧
    (downloadImage oracle cfgRetries url localPath).2.2
      = (List.range (jsOrNat cfgRetries 2)).map (fun a => 1000 * 2 ^ a) ∧
    (downloadImage oracle cfgRetries url localPath).1.success = false ∧
    (downloadImage oracle cfgRetries url localPath).1.error
      = some (jsOrString (errs (jsOrNat cfgRetries 2)) "Download failed") := by
  have hrange := attemptSequence_all_fail oracle errs (jsOrNat cfgRetries 2) h
    (List.range (jsOrNat cfgRetries 2 + 1)) none
  have hlastrw : (List.range (jsOrNat cfgRetries 2 + 1)).getLast?
      = some (jsOrNat cfgRetries 2) := by
    rw [List.range_succ]
    exact List.getLast?_concat _
  have hfilter : (List.range (jsOrNat cfgRetries 2 + 1)).filter
      (fun a => a < jsOrNat cfgRetries 2) = List.range (jsOrNat cfgRetries 2) := by
    rw [List.range_succ, List.filter_append]
    have h1 : (List.range (jsOrNat cfgRetries 2)).filter (fun a => a < jsOrNat cfgRetries 2)
        = List.range (jsOrNat cfgRetries 2) := by
      rw [List.filter_eq_self]
      intro a ha
      simpa using List.mem_range.mp ha
    have h2 : ([jsOrNat cfgRetries 2] : List Nat).filter (fun a => a < jsOrNat cfgRetries 2)
        = [] := by
      simp
    rw [h1, h2, List.append_nil]
  rw [hlastrw, hfilter] at hrange
  simp only at hrange
  unfold downloadImage
  dsimp only
  rw [hrange]
  simp

/-- Claim C6 counterexample: with retries configured to 0, the claimed
bound of retries + 1 = 1 attempt is wrong — the falsy fallback makes
the code run 3 attempts. -/
theorem downloadImage_retry_bound_fails_at_zero :
    (downloadImage (fun _ => Except.error "net down") (some 0) "u" "p").2.1 = 3 ∧
    ¬ (downloadImage (fun _ => Except.error "net down") (some 0) "u" "p").2.1 = 0 + 1 := by
  constructor <;> decide

/-- Witness for the amended C6 at a concrete input: default (unset)
retries and a permanently failing URL. -/
theorem downloadImage_retry_bound_witness :
    (∀ k : Nat, (fun _ : Nat => (Except.error "boom" : Except String Unit)) k
      = Except.error ((fun _ : Nat => "boom") k)) ∧
    ((downloadImage (fun _ => Except.error "boom") none "u" "p").2.1
       = jsOrNat none 2 + 1 ∧
     (downloadImage (fun _ => Except.error "boom") none "u" "p").2.2
       = (List.range (jsOrNat none 2)).map (fun a => 1000 * 2 ^ a) ∧
     (downloadImage (fun _ => Except.error "boom") none "u" "p").1.success = false ∧
     (downloadImage (fun _ => Except.error "boom") none "u" "p").1.error
       = some (jsOrString ((fun _ : Nat => "boom") (jsOrNat none 2)) "Download failed")) :=
  ⟨fun _ => rfl,
   downloadImage_retry_bound none (fun _ => Except.error "boom")
     (fun _ => "boom") "u" "p" (fun _ => rfl)⟩

/-- An HTTP response as observed by ImageDownloader.download: status
code, status message and the optional location header. -/
structure HttpResponse where
  statusCode : Nat
  statusMessage : String
  location : Option String
deriving DecidableEq

/-- Embeds ImageDownloader.download over an oracle mapping each URL to
a thrown request error or a response; the second component lists the
URLs fetched, in order.  A 301 or 302 response with a location header
recurses on the new location with no depth guard in the source; the
fuel parameter only makes the embedding total, and every statement
below supplies enough fuel.  The file-stream write is modeled as
succeeding, which the redirect claim does not depend on. -/
def download (oracle : String → Except String HttpResponse) :
    Nat → String → Except String Unit × List String
  | 0, _ => (.error "redirect chain exceeds fuel", [])
  | fuel + 1, url =>
    match oracle url with
    | .error e => (.error e, [url])
    | .ok resp =>
      if resp.statusCode = 301 ∨ resp.statusCode = 302 then
        match resp.location with
        | some redirectUrl =>
          let rest := download oracle fuel redirectUrl
          (rest.1, url :: rest.2)
        | none =>
          if resp.statusCode ≠ 200 then
            (.error ("HTTP " ++ toString resp.statusCode ++ ": " ++ resp.statusMessage), [url])
          else
            (.ok (), [url])
      else
        if resp.statusCode ≠ 200 then
          (.error ("HTTP " ++ toString resp.statusCode ++ ": " ++ resp.statusMessage), [url])
        else
          (.ok (), [url])

/-- A three-hop chain: a redirects to b, b redirects to c, c serves the
file. -/
def redirectChainOracle : String → Except String HttpResponse := fun url =>
  if url = "a" then .ok ⟨301, "Moved Permanently", some "b"⟩
  else if url = "b" then .ok ⟨302, "Found", some "c"⟩
  else if url = "c" then .ok ⟨200, "OK", none⟩
  else .error "unknown host"

/-- Claim C7 counterexample: after already following the redirect from
a to b, the 302 at b still leads to a fetch of c — the second-level
redirect target is fetched and the download succeeds, so redirect
following is not limited to one level. -/
theorem redirect_not_limited_to_one_level :
    (download redirectChainOracle 3 "a").2 = ["a", "b", "c"] ∧
    "c" ∈ (download redirectChainOracle 3 "a").2 ∧
    (download redirectChainOracle 3 "a").1 = Except.ok () := by
  refine ⟨rfl, ?_, rfl⟩
  decide

/-- Claim C7 (amended): every 301 or 302 response carrying a location
header leads to a fetch of that location, with no depth limit: one
step of download on such a response continues exactly as a fresh
download of the redirect target, prefixing the current URL to the
fetch trace. -/
theorem download_follows_every_redirect (oracle : String → Except String HttpResponse)
    (fuel : Nat) (url redirectUrl : String) (resp : HttpResponse)
    (hresp : oracle url = .ok resp)
    (hcode : resp.statusCode = 301 ∨ resp.statusCode = 302)
    (hloc : resp.location = some redirectUrl) :
    (download oracle (fuel + 1) url).1 = (download oracle fuel redirectUrl).1 ∧
    (download oracle (fuel + 1) url).2
      = url :: (download oracle fuel redirectUrl).2 := by
  have hstep : download oracle (fuel + 1) url
      = ((download oracle fuel redirectUrl).1,
         url :: (download oracle fuel redirectUrl).2) := by
    conv_lhs => rw [download, hresp]
    simp [hcode, hloc]
  rw [hstep]
  exact ⟨rfl, rfl⟩

/-- Witness for the amended C7 at a concrete input: the second hop of
the three-hop chain. -/
theorem download_follows_every_redirect_witness :
    (redirectChainOracle "b" = .ok ⟨302, "Found", some "c"⟩ ∧
     ((302 : Nat) = 301 ∨ (302 : Nat) = 302) ∧
     (some "c" : Option String) = some "c") ∧
    ((download redirectChainOracle 2 "b").1 = (download redirectChainOracle 1 "c").1 ∧
     (download redirectChainOracle 2 "b").2
       = "b" :: (download redirectChainOracle 1 "c").2) :=
  ⟨⟨rfl, Or.inr rfl, rfl⟩,
   download_follows_every_redirect redirectChainOracle 1 "b" "c"
     ⟨302, "Found", some "c"⟩ rfl (Or.inr rfl) rfl⟩

/-- Result of VLSPoster.postListing (interface PostResult). -/
structure PostResult where
  success : Bool
  vlsListingId : Option String
  error : Option String
deriving DecidableEq

/-- Outcomes of the page operations performed by VLSPoster.uploadImages,
one field per call site, in source order: the navigation to the listing
menu, the query for the upload link (ok true when an element is found),
then the operations inside the try block — clicking the link, waiting
for navigation, querying the file input, uploading the first file,
querying the submit button, clicking it and the final wait. -/
structure UploadOps where
  gotoListMenu : Except String Unit
  findUploadLink : Except String Bool
  clickUploadLink : Except String Unit
  waitNavAfterClick : Except String Unit
  findFileInput : Except String Bool
  uploadFirstFile : Except String Unit
  findSubmitButton : Except String Bool
  clickSubmitButton : Except String Unit
  waitNavAfterSubmit : Except String Unit

/-- The try block inside VLSPoster.uploadImages, entered only after the
upload link was found: click, wait, and when a file input exists and
there are images, upload the first image and submit. -/
def innerUploadTry (ops : UploadOps) (imagePaths : List String) : Except String Unit :=
  match ops.clickUploadLink with
  | .error e => .error e
  | .ok _ =>
    match ops.waitNavAfterClick with
    | .error e => .error e
    | .ok _ =>
      match ops.findFileInput with
      | .error e => .error e
      | .ok false => .ok ()
      | .ok true =>
        if imagePaths.isEmpty then .ok ()
        else
          match ops.uploadFirstFile with
          | .error e => .error e
          | .ok _ =>
            match ops.findSubmitButton with
            | .error e => .error e
            | .ok false => .ok ()
            | .ok true =>
              match ops.clickSubmitButton with
              | .error e => .error e
              | .ok _ => ops.waitNavAfterSubmit

/-- Embeds VLSPoster.uploadImages.  The navigation to the listing menu
and the query for the upload link sit before the try block, so their
errors propagate; an error inside the try block is caught and turned
into a console warning (returned here as the second component). -/
def uploadImages (ops : UploadOps) (imagePaths : List String) :
    Except String Unit × List String :=
  match ops.gotoListMenu with
  | .error e => (.error e, [])
  | .ok _ =>
    match ops.findUploadLink with
    | .error e => (.error e, [])
    | .ok false => (.ok (), [])
    | .ok true =>
      match innerUploadTry ops imagePaths with
      | .error w => (.ok (), ["Photo upload may have failed: " ++ w])
      | .ok _ => (.ok (), [])

/-- Embeds VLSPoster.postListing: the memoized-login guard, the
two-stage form submission (its outcome, ending in the optional listing
id scraped from the URL, is the submitOutcome parameter), then — when
an id was scraped and images exist — uploadImages, whose thrown errors
are caught by the catch block of postListing and turn the result into
a failure. -/
def postListing (ops : UploadOps) (isLoggedIn loginSucceeds : Bool)
    (submitOutcome : Except String (Option String)) (imagePaths : List String) :
    PostResult × List String :=
  if !isLoggedIn && !loginSucceeds then
    ({ success := false, vlsListingId := none
       error := some "Failed to login to VLS Homes" }, [])
  else
    match submitOutcome with
    | .error e => ({ success := false, vlsListingId := none, error := some e }, [])
    | .ok vlsIdOpt =>
      match vlsIdOpt, imagePaths with
      | some vlsId, _ :: _ =>
        match uploadImages ops imagePaths with
        | (.error e, warnings) =>
          ({ success := false, vlsListingId := none, error := some e }, warnings)
        | (.ok _, warnings) =>
          ({ success := true, vlsListingId := some vlsId, error := none }, warnings)
      | _, _ =>
        ({ success := true, vlsListingId := vlsIdOpt, error := none }, [])

/-- Upload operations where the navigation to the listing menu page
times out; everything afterwards would succeed. -/
def listMenuGotoFails : UploadOps where
  gotoListMenu := .error "Navigation timeout of 30000 ms exceeded"
  findUploadLink := .ok true
  clickUploadLink := .ok ()
  waitNavAfterClick := .ok ()
  findFileInput := .ok true
  uploadFirstFile := .ok ()
  findSubmitButton := .ok true
  clickSubmitButton := .ok ()
  waitNavAfterSubmit := .ok ()

/-- Claim C8 counterexample: the submission succeeded (listing id
12345 scraped), yet a failure in the image-upload phase — the
navigation to the listing menu, which sits before the try block —
propagates into the catch of postListing and flips the outcome to
success false, contradicting the claim that an upload failure never
changes the outcome. -/
theorem upload_failure_can_fail_post :
    (postListing listMenuGotoFails true true (.ok (some "12345")) ["img0.jpg"]).1.success
      = false ∧
    (postListing listMenuGotoFails true true (.ok (some "12345")) ["img0.jpg"]).1.error
      = some "Navigation timeout of 30000 ms exceeded" := by
  constructor <;> rfl

/-- Claim C8 (amended): once the listing menu page loads and the query
for the upload link returns (with or without a link), every later
failure of the upload interaction is caught inside uploadImages and
surfaced only as a warning: postListing keeps success true and the
scraped listing id. -/
theorem upload_failure_after_link_nonfatal (ops : UploadOps)
    (loginSucceeds : Bool) (b : Bool) (vlsId : String) (imagePaths : List String)
    (hgoto : ops.gotoListMenu = .ok ())
    (hfind : ops.findUploadLink = .ok b)
    (hpaths : imagePaths ≠ []) :
    (postListing ops true loginSucceeds (.ok (some vlsId)) imagePaths).1.success = true ∧
    (postListing ops true loginSucceeds (.ok (some vlsId)) imagePaths).1.vlsListingId
      = some vlsId := by
  cases imagePaths with
  | nil => exact absurd rfl hpaths
  | cons p ps =>
    have hupl : (uploadImages ops (p :: ps)).1 = .ok () := by
      unfold uploadImages
      rw [hgoto, hfind]
      cases b
      · rfl
      · cases hin : innerUploadTry ops (p :: ps) <;> simp
    have hpair : uploadImages ops (p :: ps)
        = (.ok (), (uploadImages ops (p :: ps)).2) := by
      rcases huu : uploadImages ops (p :: ps) with ⟨r, ws⟩
      rw [huu] at hupl
      simp only at hupl
      rw [hupl]
    unfold postListing
    rw [hpair]
    simp

/-- Upload operations where the upload link is found but clicking it
throws; the listing menu loads fine. -/
def uploadClickFails : UploadOps where
  gotoListMenu := .ok ()
  findUploadLink := .ok true
  clickUploadLink := .error "500 Internal Server Error"
  waitNavAfterClick := .ok ()
  findFileInput := .ok true
  uploadFirstFile := .ok ()
  findSubmitButton := .ok true
  clickSubmitButton := .ok ()
  waitNavAfterSubmit := .ok ()

/-- Witness for the amended C8 at a concrete input: the upload link
click throws, yet postListing reports success with the scraped id. -/
theorem upload_failure_after_link_nonfatal_witness :
    (uploadClickFails.gotoListMenu = .ok () ∧
     uploadClickFails.findUploadLink = .ok true ∧
     (["img0.jpg"] : List String) ≠ []) ∧
    ((postListing uploadClickFails true true (.ok (some "12345")) ["img0.jpg"]).1.success
       = true ∧
     (postListing uploadClickFails true true (.ok (some "12345")) ["img0.jpg"]).1.vlsListingId
       = some "12345") :=
  ⟨⟨rfl, rfl, by decide⟩,
   upload_failure_after_link_nonfatal uploadClickFails true true "12345" ["img0.jpg"]
     rfl rfl (by decide)⟩

/-- Modelled from the spec: the Variable Binder of section 4.1 is not
present in the available sources (the backend stores opaque
recordedActions and fieldMappings blobs), so the step-value data model
is taken from the specification text: a value is a sequence of
segments, each a literal run or a placeholder token. -/
inductive ValueSegment where
  | lit (text : String)
  | placeholder (token : String)
deriving DecidableEq

/-- Modelled from the spec: the six step action kinds of section 3. -/
inductive StepAction where
  | navigate
  | click
  | typeText
  | select
  | upload
  | waitFor
deriving DecidableEq

/-- Modelled from the spec: one recorded Step of section 3. -/
structure Step where
  order : Nat
  action : StepAction
  selector : String
  value : List ValueSegment
  label : Option String
  expectedSuccessText : Option String
deriving DecidableEq

/-- Lower-case a string character by character (structurally, so that
lookups evaluate inside the kernel). -/
def lowerStr (s : String) : String :=
  String.mk (s.data.map Char.toLower)

/-- Modelled from the spec: case-insensitive lookup of a placeholder
token among the field names of a record (a flat list of field name and
value pairs). -/
def lookupCI (record : List (String × String)) (token : String) : Option String :=
  (record.find? (fun p => lowerStr p.fst == lowerStr token)).map Prod.snd

/-- Modelled from the spec: the tokens of one step value that have no
case-insensitive match in the record. -/
def missingTokensOfValue (record : List (String × String))
    (value : List ValueSegment) : List String :=
  value.filterMap (fun seg =>
    match seg with
    | ValueSegment.lit _ => none
    | ValueSegment.placeholder t =>
      if lookupCI record t = none then some t else none)

/-- Modelled from the spec: all missing tokens collected across all
steps of the template, in step order — validation is exhaustive, not
fail-fast. -/
def missingTokens (record : List (String × String)) : List Step → List String
  | [] => []
  | s :: rest => missingTokensOfValue record s.value ++ missingTokens record rest

/-- Modelled from the spec: resolving one segment replaces a
placeholder by the field value it matched. -/
def resolveSegment (record : List (String × String)) (seg : ValueSegment) : ValueSegment :=
  match seg with
  | ValueSegment.lit t => ValueSegment.lit t
  | ValueSegment.placeholder t => ValueSegment.lit ((lookupCI record t).getD "")

/-- Modelled from the spec: a bound step carries only resolved values. -/
def bindStep (record : List (String × String)) (s : Step) : Step :=
  { s with value := s.value.map (resolveSegment record) }

/-- Modelled from the spec: the multi-field validation failure of the
binder, carrying every missing token. -/
structure BindingError where
  missing : List String
deriving DecidableEq

/-- Modelled from the spec: bind(template, record) — collect every
missing token of every step and fail with one BindingError listing all
of them, or succeed with all placeholders resolved.  The function is
pure, so a call has no side effect and is safely retriable. -/
def bind (template : List Step) (record : List (String × String)) :
    Except BindingError (List Step) :=
  let missing := missingTokens record template
  if missing.isEmpty then .ok (template.map (bindStep record))
  else .error ⟨missing⟩

/-- A segment with no placeholder left. -/
def segIsLiteral : ValueSegment → Bool
  | ValueSegment.lit _ => true
  | ValueSegment.placeholder _ => false

/-- Membership in the per-value missing-token list. -/
theorem mem_missingTokensOfValue (record : List (String × String))
    (value : List ValueSegment) (t : String) :
    t ∈ missingTokensOfValue record value ↔
      ValueSegment.placeholder t ∈ value ∧ lookupCI record t = none := by
  unfold missingTokensOfValue
  rw [List.mem_filterMap]
  constructor
  · rintro ⟨seg, hseg, hf⟩
    cases seg with
    | lit s => simp at hf
    | placeholder tok =>
      dsimp only at hf
      by_cases hl : lookupCI record tok = none
      · rw [if_pos hl] at hf
        cases hf
        exact ⟨hseg, hl⟩
      · rw [if_neg hl] at hf
        cases hf
  · rintro ⟨hmem, hnone⟩
    exact ⟨ValueSegment.placeholder t, hmem, by simp [hnone]⟩

/-- Membership in the collected missing-token list. -/
theorem mem_missingTokens (record : List (String × String)) :
    ∀ (template : List Step) (t : String),
      t ∈ missingTokens record template ↔
        ∃ s ∈ template, ValueSegment.placeholder t ∈ s.value ∧ lookupCI record t = none
  | [], t => by simp [missingTokens]
  | s :: rest, t => by
    have ih := mem_missingTokens record rest t
    simp only [missingTokens, List.mem_append, ih, mem_missingTokensOfValue]
    constructor
    · rintro (⟨hmem, hnone⟩ | ⟨s2, hs2, hmem2, hnone2⟩)
      · exact ⟨s, List.mem_cons_self s rest, hmem, hnone⟩
      · exact ⟨s2, List.mem_cons_of_mem s hs2, hmem2, hnone2⟩
    · rintro ⟨s2, hs2, hmem2, hnone2⟩
      rcases List.mem_cons.mp hs2 with rfl | hs2
      · exact Or.inl ⟨hmem2, hnone2⟩
      · exact Or.inr ⟨s2, hs2, hmem2, hnone2⟩

/-- Resolving always yields a literal segment. -/
theorem resolveSegment_literal (record : List (String × String)) (seg : ValueSegment) :
    segIsLiteral (resolveSegment record seg) = true := by
  cases seg <;> rfl

/-- Claim C9: when some placeholder of the template has no
case-insensitive match in the record, bind fails with one BindingError
whose list contains every missing token across all steps, not only the
first; when every placeholder resolves, bind succeeds and every value
segment of every bound step is a literal. -/
theorem bind_exhaustive (template : List Step) (record : List (String × String)) :
    ((∃ s ∈ template, ∃ t, ValueSegment.placeholder t ∈ s.value
        ∧ lookupCI record t = none) →
      ∃ err : BindingError, bind template record = .error err ∧
        ∀ s ∈ template, ∀ t, ValueSegment.placeholder t ∈ s.value →
          lookupCI record t = none → t ∈ err.missing) ∧
    ((∀ s ∈ template, ∀ t, ValueSegment.placeholder t ∈ s.value →
        lookupCI record t ≠ none) →
      ∃ steps : List Step, bind template record = .ok steps ∧
        ∀ s ∈ steps, ∀ seg ∈ s.value, segIsLiteral seg = true) := by
  constructor
  · rintro ⟨s, hs, t, hmem, hnone⟩
    have hin : t ∈ missingTokens record template :=
      (mem_missingTokens record template t).mpr ⟨s, hs, hmem, hnone⟩
    have hne : ¬ ((missingTokens record template).isEmpty = true) := by
      rw [List.isEmpty_iff]
      intro h0
      rw [h0] at hin
      cases hin
    refine ⟨⟨missingTokens record template⟩, ?_, ?_⟩
    · unfold bind
      rw [if_neg hne]
    · intro s2 hs2 t2 hmem2 hnone2
      exact (mem_missingTokens record template t2).mpr ⟨s2, hs2, hmem2, hnone2⟩
  · intro hall
    have hm : missingTokens record template = [] := by
      rw [List.eq_nil_iff_forall_not_mem]
      intro t ht
      rw [mem_missingTokens] at ht
      obtain ⟨s, hs, hmem, hnone⟩ := ht
      exact hall s hs t hmem hnone
    refine ⟨template.map (bindStep record), ?_, ?_⟩
    · unfold bind
      rw [hm]
      rfl
    · intro s hs seg hseg
      rw [List.mem_map] at hs
      obtain ⟨s0, hs0, rfl⟩ := hs
      unfold bindStep at hseg
      simp only [List.mem_map] at hseg
      obtain ⟨seg0, hseg0, rfl⟩ := hseg
      exact resolveSegment_literal record seg0

/-- A sample record with two fields, used by the C9 witness. -/
def recordSample : List (String × String) := [("Price", "100"), ("Address", "1 A St")]

/-- A template whose steps reference the missing tokens beds and baths
as well as the present token price, used by the C9 witness. -/
def templateMissing : List Step :=
  [ { order := 1, action := StepAction.typeText, selector := "input#beds"
      value := [ValueSegment.placeholder "beds"], label := none
      expectedSuccessText := none },
    { order := 2, action := StepAction.typeText, selector := "input#mix"
      value := [ValueSegment.placeholder "price", ValueSegment.placeholder "baths"]
      label := none, expectedSuccessText := none } ]

/-- A template whose only placeholder resolves in recordSample, used by
the C9 witness. -/
def templateOk : List Step :=
  [ { order := 1, action := StepAction.typeText, selector := "input#price"
      value := [ValueSegment.lit "$", ValueSegment.placeholder "price"]
      label := none, expectedSuccessText := none } ]

/-- Witness for C9 at concrete inputs: a template with two missing
tokens across two steps, and a template that binds completely. -/
theorem bind_exhaustive_witness :
    ((∃ s ∈ templateMissing, ∃ t, ValueSegment.placeholder t ∈ s.value
        ∧ lookupCI recordSample t = none) ∧
     (∃ err : BindingError, bind templateMissing recordSample = .error err ∧
        ∀ s ∈ templateMissing, ∀ t, ValueSegment.placeholder t ∈ s.value →
          lookupCI recordSample t = none → t ∈ err.missing)) ∧
    ((∀ s ∈ templateOk, ∀ t, ValueSegment.placeholder t ∈ s.value →
        lookupCI recordSample t ≠ none) ∧
     (∃ steps : List Step, bind templateOk recordSample = .ok steps ∧
        ∀ s ∈ steps, ∀ seg ∈ s.value, segIsLiteral seg = true)) := by
  have hyp1 : ∃ s ∈ templateMissing, ∃ t, ValueSegment.placeholder t ∈ s.value
      ∧ lookupCI recordSample t = none := by
    refine ⟨⟨1, StepAction.typeText, "input#beds",
      [ValueSegment.placeholder "beds"], none, none⟩, ?_, "beds", ?_, ?_⟩
    · simp [templateMissing]
    · simp
    · decide
  have hyp2 : ∀ s ∈ templateOk, ∀ t, ValueSegment.placeholder t ∈ s.value →
      lookupCI recordSample t ≠ none := by
    intro s hs t hmem
    simp only [templateOk, List.mem_singleton] at hs
    subst hs
    simp only [List.mem_cons, List.not_mem_nil, or_false] at hmem
    rcases hmem with h1 | h2
    · cases h1
    · cases h2
      intro hnone
      exact absurd hnone (by decide)
  exact ⟨⟨hyp1, (bind_exhaustive templateMissing recordSample).1 hyp1⟩,
         ⟨hyp2, (bind_exhaustive templateOk recordSample).2 hyp2⟩⟩

end VlsSync
